import Mathlib

/-!
Shallow embedding of the `openclaw monitor` rendering/detection engine
(src/unnamed/part_001). JavaScript strings are modelled as lists of Unicode
code points (`List Char`), which is how the source iterates them
(`Array.from`, `for..of`); JavaScript numbers are modelled as `ℚ` where the
source computes with fractional values and as `ℤ`/`ℕ` where it computes with
integers. `Math.floor` is modelled by `Int.floor` and `Math.round` by
`jsRound` below. The Unicode property tables consulted by the two regular
expressions `\p{Mark}` and `\p{Extended_Pictographic}` live in the JS
runtime, not in this repository, so they are modelled as an explicit pair of
predicates (`UnicodeTables`) that every theorem quantifies over.
-/

/-- Code-point view of a string literal. -/
def str (s : String) : List Char := s.data

/-- The two Unicode property tables used by the source
(COMBINING_MARK_RE and EXTENDED_PICTOGRAPHIC_RE); they belong to the JS
regex engine and are kept abstract. -/
structure UnicodeTables where
  isMark : Nat → Bool
  isPicto : Nat → Bool

/-- Concrete table instance that is correct on the ASCII range (no ASCII
code point is a combining mark or extended-pictographic); used to evaluate
theorems on concrete ASCII inputs. -/
def asciiTables : UnicodeTables := ⟨fun _ => false, fun _ => false⟩

/-- Transcription of isFullwidthCodePoint (part_001 lines 451-471). -/
def isFullwidthCodePoint (cp : Nat) : Bool :=
  0x1100 ≤ cp &&
    (cp ≤ 0x115f ||
      cp = 0x2329 ||
      cp = 0x232a ||
      (0x2e80 ≤ cp && cp ≤ 0x3247 && cp ≠ 0x303f) ||
      (0x3250 ≤ cp && cp ≤ 0x4dbf) ||
      (0x4e00 ≤ cp && cp ≤ 0xa4c6) ||
      (0xa960 ≤ cp && cp ≤ 0xa97c) ||
      (0xac00 ≤ cp && cp ≤ 0xd7a3) ||
      (0xf900 ≤ cp && cp ≤ 0xfaff) ||
      (0xfe10 ≤ cp && cp ≤ 0xfe19) ||
      (0xfe30 ≤ cp && cp ≤ 0xfe6b) ||
      (0xff01 ≤ cp && cp ≤ 0xff60) ||
      (0xffe0 ≤ cp && cp ≤ 0xffe6) ||
      (0x1b000 ≤ cp && cp ≤ 0x1b001) ||
      (0x1f200 ≤ cp && cp ≤ 0x1f251) ||
      (0x20000 ≤ cp && cp ≤ 0x3fffd))

/-- Transcription of charDisplayWidth (part_001 lines 473-495).
The `codePoint == null` guard of the source cannot fire here because a
`Char` always is a code point. -/
def charDisplayWidth (U : UnicodeTables) (cp : Nat) : Nat :=
  if cp = 0 then 0
  else if cp < 0x20 then 0
  else if 0x7f ≤ cp ∧ cp ≤ 0x9f then 0
  else if cp = 0x200d then 0
  else if 0xfe00 ≤ cp ∧ cp ≤ 0xfe0f then 0
  else if U.isMark cp then 0
  else if U.isPicto cp || isFullwidthCodePoint cp then 2
  else 1

/-- Transcription of displayWidth (part_001 lines 497-503): sum of
per-code-point widths over the code points of the text. -/
def displayWidth (U : UnicodeTables) (text : List Char) : Nat :=
  (text.map (fun c => charDisplayWidth U c.toNat)).sum

/-- Per-code-point width written from the words of the specification:
0 for the null character and other C0/C1 controls, the zero-width joiner,
variation selectors and combining marks; 2 for extended-pictographic
characters and the known East-Asian fullwidth/wide ranges; 1 for everything
else. (The variation-selector supplement U+E0100..U+E01EF consists of
combining marks and is covered by the combining-mark clause.) -/
def specCharWidth (U : UnicodeTables) (cp : Nat) : Nat :=
  if cp = 0 ∨ cp < 0x20 ∨ (0x7f ≤ cp ∧ cp ≤ 0x9f) ∨ cp = 0x200d ∨
      (0xfe00 ≤ cp ∧ cp ≤ 0xfe0f) ∨ U.isMark cp then 0
  else if U.isPicto cp || isFullwidthCodePoint cp then 2
  else 1

/-- Model of JS `String(n).padStart(2, "0")` for a natural number. -/
def pad2 (n : Nat) : List Char :=
  let d := Nat.toDigits 10 n
  List.replicate (2 - d.length) '0' ++ d

/-- Transcription of formatElapsed (part_001 lines 505-514). -/
def formatElapsed (seconds : ℚ) : List Char :=
  let total : Nat := (max 0 ⌊seconds⌋).toNat
  let hours := total / 3600
  let mins := (total % 3600) / 60
  let secs := total % 60
  if 0 < hours then pad2 hours ++ str ":" ++ pad2 mins ++ str ":" ++ pad2 secs
  else pad2 mins ++ str ":" ++ pad2 secs

/-- The mm:ss shape of the specification for values below one hour. -/
def mmssSpec (n : Nat) : List Char := pad2 (n / 60) ++ str ":" ++ pad2 (n % 60)

/-- The hh:mm:ss shape of the specification for values of one hour and up. -/
def hhmmssSpec (n : Nat) : List Char :=
  pad2 (n / 3600) ++ str ":" ++ pad2 (n % 3600 / 60) ++ str ":" ++ pad2 (n % 60)

/-- Model of JS `Math.round` (round half toward positive infinity). -/
def jsRound (q : ℚ) : ℤ := ⌊q + 1 / 2⌋

inductive DecaySide where
  | left
  | right
deriving DecidableEq, Repr

/-- The TS type `number | "auto"`; the program only ever produces the
numbers 1 and 2 (parseSymbolWidth) or 2 (TERMINAL_DEFAULTS, image style). -/
inductive SymbolWidth where
  | auto
  | fixed (w : Nat)
deriving DecidableEq, Repr

/-- Transcription of resolveSymbolWidth (part_001 lines 516-521). -/
def resolveSymbolWidth (U : UnicodeTables) (symbol : List Char) :
    SymbolWidth → Nat
  | .auto => max 1 (displayWidth U symbol)
  | .fixed w => w

/-- Result record of repeatToWidth. -/
structure RepeatResult where
  value : List Char
  usedColumns : Nat
deriving DecidableEq, Repr

/-- A run of `n` spaces. -/
def spacesL (n : Nat) : List Char := List.replicate n ' '

/-- Transcription of repeatToWidth (part_001 lines 523-546). -/
def repeatToWidth (U : UnicodeTables) (symbol : List Char) (columns : ℤ)
    (minOne : Bool) (widthOverride : SymbolWidth) : RepeatResult :=
  if columns ≤ 0 then ⟨[], 0⟩
  else
    let symbolWidth := resolveSymbolWidth U symbol widthOverride
    let count0 := columns.toNat / symbolWidth
    let count := if count0 = 0 ∧ minOne then 1 else count0
    if count = 0 then ⟨[], 0⟩
    else ⟨(List.replicate count symbol).flatten, count * symbolWidth⟩

/-- The clamp applied by buildBarArea (part_001 line 562). -/
def barClamped (filledColumns : ℚ) (totalColumns : ℤ) : ℤ :=
  max 0 (min ⌊filledColumns⌋ totalColumns)

/-- Transcription of buildBarArea (part_001 lines 548-570). -/
def buildBarArea (U : UnicodeTables) (symbol : List Char)
    (filledColumns : ℚ) (totalColumns : ℤ) (decaySide : DecaySide)
    (symbolWidth : SymbolWidth) : List Char :=
  if totalColumns ≤ 0 then []
  else
    let clamped := barClamped filledColumns totalColumns
    let repeated := repeatToWidth U symbol clamped (decide (0 < clamped)) symbolWidth
    let gap := spacesL (totalColumns - (repeated.usedColumns : ℤ)).toNat
    match decaySide with
    | .left => gap ++ repeated.value
    | .right => repeated.value ++ gap

/-- The glyph display width actually emitted by buildBarArea for given
inputs: the usedColumns of the repeatToWidth call it performs. -/
def barUsedColumns (U : UnicodeTables) (symbol : List Char)
    (filledColumns : ℚ) (totalColumns : ℤ) (symbolWidth : SymbolWidth) : Nat :=
  (repeatToWidth U symbol (barClamped filledColumns totalColumns)
    (decide (0 < barClamped filledColumns totalColumns)) symbolWidth).usedColumns

inductive TerminalProfile where
  | appleTerminal
  | iterm2
  | warp
  | generic
deriving DecidableEq, Repr

inductive TerminalProfileOption where
  | auto
  | appleTerminal
  | iterm2
  | warp
  | generic
deriving DecidableEq, Repr

inductive LobsterStyle where
  | text
  | image
deriving DecidableEq, Repr

inductive LobsterStyleOption where
  | auto
  | text
  | image
deriving DecidableEq, Repr

inductive ColorMode where
  | dark
  | light
deriving DecidableEq, Repr

inductive ColorModeOption where
  | auto
  | dark
  | light
deriving DecidableEq, Repr

/-- The TS type `number | "auto"` of the parsed width option. -/
inductive WidthOption where
  | auto
  | cols (n : ℤ)
deriving DecidableEq, Repr

/-- Transcription of the ParsedMonitorOptions record (part_001 lines 37-54). -/
structure ParsedMonitorOptions where
  logs : List Char
  warnSeconds : ℚ
  criticalSeconds : ℚ
  okEmoji : List Char
  warnEmoji : List Char
  criticalEmoji : List Char
  decaySide : DecaySide
  refreshMs : ℤ
  width : WidthOption
  hideCursor : Bool
  clearOnEvents : Bool
  terminalProfile : TerminalProfileOption
  emojiWidth : SymbolWidth
  lobsterStyle : LobsterStyleOption
  colorMode : ColorModeOption
  resolvedColorMode : ColorMode
deriving DecidableEq, Repr

/-- The per-state image escape sequences (Record<"ok"|"warn"|"critical", string>). -/
structure ImageSymbols where
  ok : List Char
  warn : List Char
  critical : List Char
deriving DecidableEq, Repr

/-- Transcription of the RuntimeTerminalConfig record (part_001 lines 62-70). -/
structure RuntimeTerminalConfig where
  profile : TerminalProfile
  drawPfx : List Char
  symbolWidth : SymbolWidth
  supportsCursorHide : Bool
  lobsterStyle : LobsterStyle
  colorMode : ColorMode
  imageSymbols : Option ImageSymbols
deriving DecidableEq, Repr

inductive BarState where
  | ok
  | warn
  | critical
deriving DecidableEq, Repr

/-- Field access for an ImageSymbols record by state. -/
def ImageSymbols.get (s : ImageSymbols) : BarState → List Char
  | .ok => s.ok
  | .warn => s.warn
  | .critical => s.critical

/-- Transcription of pickStateSymbol (part_001 lines 572-597); the warp
fallback symbol is the solid block pair and the hollow-square comparison is
against U+2B1C. -/
def pickStateSymbol (options : ParsedMonitorOptions)
    (runtime : Option RuntimeTerminalConfig) (state : BarState) : List Char :=
  let imageSyms : Option ImageSymbols :=
    match runtime with
    | some rt => if rt.lobsterStyle = .image then rt.imageSymbols else none
    | none => none
  match imageSyms with
  | some syms => syms.get state
  | none =>
    let warpFallback : Bool :=
      match runtime with
      | some rt =>
        rt.profile = TerminalProfile.warp ∧ rt.lobsterStyle ≠ .image ∧
          state = BarState.critical ∧ options.criticalEmoji = str "⬜"
      | none => false
    if warpFallback then str "██"
    else
      match state with
      | .ok => options.okEmoji
      | .warn => options.warnEmoji
      | .critical => options.criticalEmoji

/-- The symbol width used by renderMonitorLine (part_001 line 608):
`runtime?.symbolWidth ?? options.emojiWidth`. -/
def symWidthOf (options : ParsedMonitorOptions)
    (runtime : Option RuntimeTerminalConfig) : SymbolWidth :=
  match runtime with
  | some rt => rt.symbolWidth
  | none => options.emojiWidth

/-- The elapsed-time lead-in of the monitor line (part_001 line 606). -/
def elapsedPfx (idleMs : ℚ) : List Char :=
  str "[" ++ formatElapsed (max 0 (idleMs / 1000)) ++ str "] "

/-- The available bar columns of the monitor line (part_001 line 607). -/
def availCols (U : UnicodeTables) (idleMs : ℚ) (totalColumns : ℤ) : ℤ :=
  max 0 (totalColumns - (displayWidth U (elapsedPfx idleMs) : ℤ))

/-- Transcription of renderMonitorLine (part_001 lines 599-632). -/
def renderMonitorLine (U : UnicodeTables) (options : ParsedMonitorOptions)
    (idleMs : ℚ) (totalColumns : ℤ)
    (runtime : Option RuntimeTerminalConfig) : List Char :=
  let idleSeconds := max 0 (idleMs / 1000)
  let availableColumns := availCols U idleMs totalColumns
  let symbolWidth := symWidthOf options runtime
  if options.criticalSeconds ≤ idleSeconds then
    elapsedPfx idleMs ++
      buildBarArea U (pickStateSymbol options runtime .critical)
        (availableColumns : ℚ) availableColumns .right symbolWidth
  else
    let remaining := max 0 (1 - idleSeconds / options.criticalSeconds)
    let filledColumns := jsRound ((availableColumns : ℚ) * remaining)
    let state : BarState :=
      if options.warnSeconds ≤ idleSeconds then .warn else .ok
    elapsedPfx idleMs ++
      buildBarArea U (pickStateSymbol options runtime state)
        (filledColumns : ℚ) availableColumns options.decaySide symbolWidth

/-- Result of fs.statSync as far as the watcher reads it (dev, ino, size). -/
structure Stats where
  dev : Nat
  ino : Nat
  size : Nat
deriving DecidableEq, Repr

/-- Transcription of the FileState record (part_001 lines 56-60). -/
structure FileState where
  dev : Nat
  ino : Nat
  size : Nat
deriving DecidableEq, Repr

/-- The per-file body of the scan loop (part_001 lines 165-178): rotation
reset, truncation reset, then the growth comparison; returns the updated
state and whether this file flagged growth on this call. -/
def fileStep (st : FileState) (stats : Stats) : FileState × Bool :=
  let st1 :=
    if st.dev ≠ stats.dev ∨ st.ino ≠ stats.ino then
      { dev := stats.dev, ino := stats.ino, size := 0 }
    else st
  let st2 := if stats.size < st1.size then { st1 with size := 0 } else st1
  if st2.size < stats.size then ({ st2 with size := stats.size }, true)
  else (st2, false)

/-- Association-list lookup of a tracked path. -/
def getState (states : List (List Char × FileState)) (p : List Char) :
    Option FileState :=
  (states.find? (fun e => e.1 = p)).map (·.2)

/-- Association-list update (Map.set). -/
def setState (states : List (List Char × FileState)) (p : List Char)
    (st : FileState) : List (List Char × FileState) :=
  match states with
  | [] => [(p, st)]
  | (q, s) :: rest =>
    if q = p then (p, st) :: rest else (q, s) :: setState rest p st

/-- Association-list removal (Map.delete). -/
def eraseState (states : List (List Char × FileState)) (p : List Char) :
    List (List Char × FileState) :=
  states.filter (fun e => ¬ e.1 = p)

/-- Insertion into a sorted list by code-point order (the model of the
locale-dependent localeCompare comparator of part_001 line 145). -/
def insertSorted (p : List Char) : List (List Char) → List (List Char)
  | [] => [p]
  | q :: rest => if p < q then p :: q :: rest else q :: insertSorted p rest

/-- Deterministic iteration order of the matched paths. -/
def sortPaths (l : List (List Char)) : List (List Char) :=
  l.foldr insertSorted []

/-- One snapshot of the filesystem as the watcher sees it on a scan:
the glob-matched paths with their stat result (`none` when statSync
throws). The filesystem itself is external to the repository. -/
def FsSnapshot := List (List Char × Option Stats)

/-- Stat lookup within a snapshot. -/
def snapStat (snap : FsSnapshot) (p : List Char) : Option Stats :=
  match (snap.find? (fun e => e.1 = p)).map (·.2) with
  | some r => r
  | none => none

/-- The per-path step of scanForGrowth over the accumulated
(states, sawGrowth) pair. -/
def scanStep (snap : FsSnapshot)
    (acc : List (List Char × FileState) × Bool) (p : List Char) :
    List (List Char × FileState) × Bool :=
  match snapStat snap p with
  | none => (eraseState acc.1 p, acc.2)
  | some stats =>
    match getState acc.1 p with
    | none => (setState acc.1 p ⟨stats.dev, stats.ino, stats.size⟩, acc.2)
    | some st =>
      let r := fileStep st stats
      (setState acc.1 p r.1, acc.2 || r.2)

/-- Transcription of LogGrowthWatcher.scanForGrowth (part_001 lines
135-182) as a function from the tracked-state map and a filesystem
snapshot to the updated map and the growth flag: drop states no longer
matched, then visit the matched paths in sorted order. -/
def scanForGrowth (states : List (List Char × FileState))
    (snap : FsSnapshot) : List (List Char × FileState) × Bool :=
  let matched := snap.map (·.1)
  let kept := states.filter (fun e => matched.contains e.1)
  (sortPaths matched).foldl (scanStep snap) (kept, false)

/-- A raw numeric CLI string, abstracted to the results of the JS builtin
parses applied to it after trimming: whether it lowercases to "auto",
its finite Number.parseFloat value (none for NaN or infinite), and its
finite Number.parseInt value. The builtins are external to the repo. -/
structure NumStr where
  isAuto : Bool
  asFloat : Option ℚ
  asInt : Option ℤ
deriving DecidableEq, Repr

/-- The numeric literal CLI strings used as defaults. -/
def numStrNat (n : Nat) : NumStr := ⟨false, some n, some n⟩

/-- The CLI string "auto". -/
def numStrAuto : NumStr := ⟨true, none, none⟩

/-- Transcription of parsePositiveNumber (part_001 lines 185-192). -/
def parsePositiveNumber (v : NumStr) (flag : String) : Except String ℚ :=
  match v.asFloat with
  | some q => if q ≤ 0 then .error (flag ++ " must be a positive number") else .ok q
  | none => .error (flag ++ " must be a positive number")

/-- Transcription of parsePositiveInteger (part_001 lines 194-201). -/
def parsePositiveInteger (v : NumStr) (flag : String) : Except String ℤ :=
  match v.asInt with
  | some n => if n ≤ 0 then .error (flag ++ " must be a positive integer") else .ok n
  | none => .error (flag ++ " must be a positive integer")

/-- Transcription of parseWidth (part_001 lines 203-215). -/
def parseWidth (v : NumStr) : Except String WidthOption :=
  if v.isAuto then .ok .auto
  else
    match v.asInt with
    | some n =>
      if n ≤ 0 then .error "--width must be a positive integer or auto"
      else .ok (.cols n)
    | none => .error "--width must be a positive integer or auto"

/-- Transcription of parseSymbolWidth (part_001 lines 227-239): auto, 1
or 2 only. -/
def parseSymbolWidth (v : NumStr) : Except String SymbolWidth :=
  if v.isAuto then .ok .auto
  else
    match v.asInt with
    | some n =>
      if n = 1 ∨ n = 2 then .ok (.fixed n.toNat)
      else .error "--emoji-width must be one of: auto, 1, 2"
    | none => .error "--emoji-width must be one of: auto, 1, 2"

/-- JS String.prototype.trim on the whitespace the CLI can see. -/
def isJsWs (c : Char) : Bool := c = ' ' || c = '\t' || c = '\n' || c = '\r'

/-- Trim both ends. -/
def jsTrim (s : List Char) : List Char :=
  ((s.dropWhile isJsWs).reverse.dropWhile isJsWs).reverse

/-- Lowercasing per code point. -/
def jsLower (s : List Char) : List Char := s.map Char.toLower

/-- Transcription of parseTerminalProfile (part_001 lines 217-225). -/
def parseTerminalProfile (value : Option (List Char)) :
    Except String TerminalProfileOption :=
  let n := jsLower (jsTrim (value.getD (str "auto")))
  if n = str "auto" then .ok .auto
  else if n = str "apple-terminal" then .ok .appleTerminal
  else if n = str "iterm2" then .ok .iterm2
  else if n = str "warp" then .ok .warp
  else if n = str "generic" then .ok .generic
  else .error "--terminal-profile must be one of auto, apple-terminal, iterm2, warp, generic"

/-- Transcription of parseLobsterStyle (part_001 lines 241-249). -/
def parseLobsterStyle (value : Option (List Char)) :
    Except String LobsterStyleOption :=
  let n := jsLower (jsTrim (value.getD (str "auto")))
  if n = str "auto" then .ok .auto
  else if n = str "text" then .ok .text
  else if n = str "image" then .ok .image
  else .error "--lobster-style must be one of: auto, text, image"

/-- Transcription of parseColorMode (part_001 lines 251-259). -/
def parseColorMode (value : Option (List Char)) :
    Except String ColorModeOption :=
  let n := jsLower (jsTrim (value.getD (str "auto")))
  if n = str "auto" then .ok .auto
  else if n = str "dark" then .ok .dark
  else if n = str "light" then .ok .light
  else .error "--color-mode must be one of: auto, dark, light"

/-- Resolution of the color mode choice (part_001 line 326); the detected
system color mode is an input because detectSystemColorMode reads the
environment and platform, which are external. -/
def resolveColorMode (c : ColorModeOption) (detected : ColorMode) : ColorMode :=
  match c with
  | .auto => detected
  | .dark => .dark
  | .light => .light

/-- Transcription of the raw MonitorCliOptions record (part_001 lines
18-35); string-typed numeric fields are carried as NumStr. -/
structure MonitorCliOptions where
  logs : Option (List Char) := none
  warnSeconds : Option NumStr := none
  criticalSeconds : Option NumStr := none
  okEmoji : Option (List Char) := none
  warnEmoji : Option (List Char) := none
  criticalEmoji : Option (List Char) := none
  decaySide : Option DecaySide := none
  refreshMs : Option NumStr := none
  width : Option NumStr := none
  hideCursor : Option Bool := none
  clearOnEvents : Option Bool := none
  clear : Option Bool := none
  terminalProfile : Option (List Char) := none
  emojiWidth : Option NumStr := none
  lobsterStyle : Option (List Char) := none
  colorMode : Option (List Char) := none

/-- Transcription of parseMonitorOptions (part_001 lines 315-364), with
the detected system color mode passed in. Each validation failure of the
source (a thrown Error) is an `.error`; the sequencing mirrors the order
of the throws in the source. -/
def parseMonitorOptions (raw : MonitorCliOptions) (detected : ColorMode) :
    Except String ParsedMonitorOptions :=
  let logs0 := jsTrim (raw.logs.getD [])
  let logs := if logs0 = [] then str "/tmp/openclaw/openclaw-*.log" else logs0
  match parsePositiveNumber (raw.warnSeconds.getD (numStrNat 60)) "--warn-seconds" with
  | .error e => .error e
  | .ok warnSeconds =>
  match parsePositiveNumber (raw.criticalSeconds.getD (numStrNat 120)) "--critical-seconds" with
  | .error e => .error e
  | .ok criticalSeconds =>
  match parsePositiveInteger (raw.refreshMs.getD (numStrNat 250)) "--refresh-ms" with
  | .error e => .error e
  | .ok refreshMs =>
  match parseWidth (raw.width.getD numStrAuto) with
  | .error e => .error e
  | .ok width =>
  let decaySide : DecaySide :=
    match raw.decaySide with
    | some .right => .right
    | _ => .left
  match parseTerminalProfile raw.terminalProfile with
  | .error e => .error e
  | .ok terminalProfile =>
  match parseSymbolWidth (raw.emojiWidth.getD numStrAuto) with
  | .error e => .error e
  | .ok emojiWidth =>
  match parseLobsterStyle raw.lobsterStyle with
  | .error e => .error e
  | .ok lobsterStyle =>
  match parseColorMode raw.colorMode with
  | .error e => .error e
  | .ok colorMode =>
  let resolvedColorMode := resolveColorMode colorMode detected
  if criticalSeconds ≤ warnSeconds then
    .error "--critical-seconds must be greater than --warn-seconds"
  else
    let okEmoji := raw.okEmoji.getD (str "🦞")
    let warnEmoji :=
      raw.warnEmoji.getD (if resolvedColorMode = .dark then str "🟨" else str "🟧")
    let criticalEmoji :=
      raw.criticalEmoji.getD (if resolvedColorMode = .dark then str "⬜" else str "⬛")
    if okEmoji = [] then .error "--ok-emoji cannot be empty"
    else if warnEmoji = [] then .error "--warn-emoji cannot be empty"
    else if criticalEmoji = [] then .error "--critical-emoji cannot be empty"
    else
      .ok
        { logs, warnSeconds, criticalSeconds, okEmoji, warnEmoji,
          criticalEmoji, decaySide, refreshMs, width,
          hideCursor := raw.hideCursor ≠ some false,
          clearOnEvents := raw.clearOnEvents ≠ some false ∧ raw.clear ≠ some false,
          terminalProfile, emojiWidth, lobsterStyle, colorMode,
          resolvedColorMode }

/-- A concrete options record for evaluating the critical-state branch:
thresholds 50/100 seconds, ASCII glyphs, an explicit symbol width of 2. -/
def optsCritical : ParsedMonitorOptions :=
  { logs := str "g", warnSeconds := 50, criticalSeconds := 100,
    okEmoji := str "O", warnEmoji := str "W", criticalEmoji := str "C",
    decaySide := .left, refreshMs := 250, width := .auto,
    hideCursor := true, clearOnEvents := true, terminalProfile := .auto,
    emojiWidth := .fixed 2, lobsterStyle := .auto, colorMode := .auto,
    resolvedColorMode := .dark }

/-- A concrete options record matching the repository test fixture:
thresholds 5/10 seconds, glyphs O/W/C, auto symbol width, left decay. -/
def optsBar : ParsedMonitorOptions :=
  { logs := str "g", warnSeconds := 5, criticalSeconds := 10,
    okEmoji := str "O", warnEmoji := str "W", criticalEmoji := str "C",
    decaySide := .left, refreshMs := 250, width := .auto,
    hideCursor := true, clearOnEvents := true, terminalProfile := .auto,
    emojiWidth := .auto, lobsterStyle := .auto, colorMode := .auto,
    resolvedColorMode := .dark }

/-- A raw CLI record whose thresholds are inverted (warn 120, critical 60). -/
def rawThresholdBad : MonitorCliOptions :=
  { warnSeconds := some (numStrNat 120), criticalSeconds := some (numStrNat 60) }

theorem charDisplayWidth_eq_spec (U : UnicodeTables) (cp : Nat) :
    charDisplayWidth U cp = specCharWidth U cp := by
  unfold charDisplayWidth specCharWidth
  split_ifs <;> simp_all <;> omega

/-- C7: for every string, displayWidth is the non-negative sum of
per-code-point contributions — 0 for the null character and other C0/C1
controls, the zero-width joiner, variation selectors and combining marks;
2 for extended-pictographic characters and known East-Asian
fullwidth/wide code points; 1 for everything else — iterating by Unicode
code point (the model represents a JS string as its code-point sequence,
which is what Array.from iterates), so the width of a concatenation is
the sum of the widths. -/
theorem displayWidth_codepoint_sum (U : UnicodeTables) (text : List Char) :
    displayWidth U text = (text.map (fun c => specCharWidth U c.toNat)).sum ∧
    (∀ s t : List Char, displayWidth U (s ++ t) = displayWidth U s + displayWidth U t) := by
  constructor
  · simp [displayWidth, charDisplayWidth_eq_spec]
  · intro s t
    simp [displayWidth]

/-- C8: for every non-negative number of seconds, formatElapsed renders
the truncated whole-second value as zero-padded mm:ss while it is below
3600 and as hh:mm:ss from 3600 on; 0, 61 and 3661 seconds render as
00:00, 01:01 and 01:01:01. -/
theorem formatElapsed_mm_hh (s : ℚ) (h : 0 ≤ s) :
    (⌊s⌋.toNat < 3600 → formatElapsed s = mmssSpec ⌊s⌋.toNat) ∧
    (3600 ≤ ⌊s⌋.toNat → formatElapsed s = hhmmssSpec ⌊s⌋.toNat) ∧
    formatElapsed 0 = str "00:00" ∧
    formatElapsed 61 = str "01:01" ∧
    formatElapsed 3661 = str "01:01:01" := by
  have hfl : 0 ≤ ⌊s⌋ := Int.floor_nonneg.mpr h
  refine ⟨fun hlt => ?_, fun hge => ?_, ?_, ?_, ?_⟩
  · unfold formatElapsed mmssSpec
    rw [max_eq_right hfl]
    have h0 : ⌊s⌋.toNat / 3600 = 0 := Nat.div_eq_of_lt hlt
    have h1 : ⌊s⌋.toNat % 3600 = ⌊s⌋.toNat := Nat.mod_eq_of_lt hlt
    simp [h0, h1]
  · unfold formatElapsed hhmmssSpec
    rw [max_eq_right hfl]
    have h0 : 0 < ⌊s⌋.toNat / 3600 := Nat.div_pos hge (by norm_num)
    simp [h0]
  · have h0 : ⌊(0:ℚ)⌋ = 0 := by norm_num
    simp only [formatElapsed, h0]
    decide
  · have h0 : ⌊(61:ℚ)⌋ = 61 := by norm_num
    simp only [formatElapsed, h0]
    decide
  · have h0 : ⌊(3661:ℚ)⌋ = 3661 := by norm_num
    simp only [formatElapsed, h0]
    decide

/-- Witness for formatElapsed_mm_hh at 61 seconds. -/
theorem formatElapsed_mm_hh_witness :
    (0:ℚ) ≤ 61 ∧ formatElapsed 61 = mmssSpec ⌊(61:ℚ)⌋.toNat :=
  ⟨by norm_num, (formatElapsed_mm_hh 61 (by norm_num)).1 (by norm_num)⟩

/-- C10: the auto-detected glyph width is at least 1 for every symbol,
including the empty string and zero-display-width symbols, so the
repeat-count division inside repeatToWidth is never a division by zero
and a positive column budget always yields a positive emitted width when
a minimum of one glyph is requested. -/
theorem resolveSymbolWidth_auto_pos (U : UnicodeTables) (symbol : List Char) :
    1 ≤ resolveSymbolWidth U symbol SymbolWidth.auto ∧
    (∀ columns : ℤ, 0 < columns →
      0 < (repeatToWidth U symbol columns true SymbolWidth.auto).usedColumns) := by
  refine ⟨le_max_left 1 _, fun columns hc => ?_⟩
  unfold repeatToWidth
  rw [if_neg (not_le.mpr hc)]
  have hw1 : 0 < resolveSymbolWidth U symbol SymbolWidth.auto :=
    lt_of_lt_of_le Nat.zero_lt_one (le_max_left 1 _)
  by_cases h0 : columns.toNat / resolveSymbolWidth U symbol SymbolWidth.auto = 0
  · simp [h0, hw1]
  · simp [h0, Nat.mul_pos (Nat.pos_of_ne_zero h0) hw1]

/-- Witness for resolveSymbolWidth_auto_pos on the empty symbol with one
column. -/
theorem resolveSymbolWidth_auto_pos_witness :
    (0:ℤ) < 1 ∧ 0 < (repeatToWidth asciiTables [] 1 true SymbolWidth.auto).usedColumns :=
  ⟨by decide, (resolveSymbolWidth_auto_pos asciiTables []).2 1 (by decide)⟩

theorem scanForGrowth_single_new (p : List Char) (stats : Stats) :
    scanForGrowth [] [(p, some stats)] =
      ([(p, ⟨stats.dev, stats.ino, stats.size⟩)], false) := by
  simp [scanForGrowth, sortPaths, insertSorted, scanStep, snapStat, getState,
    setState, List.find?]

theorem scanForGrowth_single (p : List Char) (st : FileState) (stats : Stats) :
    scanForGrowth [(p, st)] [(p, some stats)] =
      ([(p, (fileStep st stats).1)], (fileStep st stats).2) := by
  simp [scanForGrowth, sortPaths, insertSorted, scanStep, snapStat, getState,
    setState, List.find?, List.filter, List.contains]

theorem fileStep_trunc (st : FileState) (stats : Stats)
    (hdev : st.dev = stats.dev) (hino : st.ino = stats.ino)
    (htr : stats.size < st.size) :
    fileStep st stats = (⟨stats.dev, stats.ino, stats.size⟩, decide (0 < stats.size)) := by
  unfold fileStep
  simp only [hdev, hino, ne_eq, not_true_eq_false, false_or, or_self, if_false,
    if_pos htr, ite_false]
  by_cases h0 : 0 < stats.size
  · simp [h0, hdev, hino]
  · have hz : stats.size = 0 := by omega
    simp [h0, hz, hdev, hino]

theorem fileStep_rot (st : FileState) (stats : Stats)
    (hrot : st.dev ≠ stats.dev ∨ st.ino ≠ stats.ino) :
    fileStep st stats = (⟨stats.dev, stats.ino, stats.size⟩, decide (0 < stats.size)) := by
  unfold fileStep
  rw [if_pos hrot]
  by_cases h0 : 0 < stats.size
  · simp [h0]
  · have hz : stats.size = 0 := by omega
    simp [h0, hz]

theorem fileStep_grow (st : FileState) (stats : Stats)
    (hdev : st.dev = stats.dev) (hino : st.ino = stats.ino)
    (hg : st.size < stats.size) :
    fileStep st stats = (⟨stats.dev, stats.ino, stats.size⟩, true) := by
  unfold fileStep
  simp only [hdev, hino, ne_eq, not_true_eq_false, or_self, if_false, ite_false]
  have h1 : ¬ stats.size < st.size := by omega
  simp [h1, hg, hdev, hino]

theorem fileStep_stable (st : FileState) (stats : Stats)
    (hdev : st.dev = stats.dev) (hino : st.ino = stats.ino)
    (hsz : stats.size = st.size) :
    fileStep st stats = (st, false) := by
  unfold fileStep
  simp only [hdev, hino, ne_eq, not_true_eq_false, or_self, if_false, ite_false]
  have h1 : ¬ stats.size < st.size := by omega
  have h2 : ¬ st.size < stats.size := by omega
  simp [h1, h2]

/-- C2 counterexample: a file tracked at size 10 truncated to size 5 is
flagged as growth on that same scan (the reset to 0 is immediately
overtaken by the size comparison), and the stored size ends at 5, not 0 —
the claim that no growth is flagged for truncation to any smaller size is
false. -/
theorem scanForGrowth_truncation_counterexample :
    scanForGrowth [(str "a.log", ⟨1, 1, 10⟩)] [(str "a.log", some ⟨1, 1, 5⟩)] =
      ([(str "a.log", ⟨1, 1, 5⟩)], true) ∧
    ¬ (scanForGrowth [(str "a.log", ⟨1, 1, 10⟩)]
        [(str "a.log", some ⟨1, 1, 5⟩)]).2 = false := by
  constructor
  · decide
  · decide

/-- C2 (amended): when the current size is strictly smaller than the
stored size (same device/inode), scanForGrowth resets the stored size to
0 and then applies the ordinary growth comparison on the same call: the
call flags growth exactly when the new size is positive, and the stored
size ends at the new size; truncation to zero therefore flags nothing. -/
theorem scanForGrowth_truncation (p : List Char) (st : FileState) (stats : Stats)
    (hdev : st.dev = stats.dev) (hino : st.ino = stats.ino)
    (htr : stats.size < st.size) :
    scanForGrowth [(p, st)] [(p, some stats)] =
      ([(p, ⟨stats.dev, stats.ino, stats.size⟩)], decide (0 < stats.size)) := by
  rw [scanForGrowth_single, fileStep_trunc st stats hdev hino htr]

/-- Witness for scanForGrowth_truncation: truncation of a size-10 file to
zero resets the state and reports no growth. -/
theorem scanForGrowth_truncation_witness :
    scanForGrowth [(str "b.log", ⟨2, 3, 10⟩)] [(str "b.log", some ⟨2, 3, 0⟩)] =
      ([(str "b.log", ⟨2, 3, 0⟩)], decide ((0:Nat) < 0)) :=
  scanForGrowth_truncation (str "b.log") ⟨2, 3, 10⟩ ⟨2, 3, 0⟩ rfl rfl (by decide)

/-- C4: over a file with pre-existing content, the first scan of a fresh
watcher seeds the baseline at the current size and reports no growth;
after an append past that baseline exactly the next scan reports growth,
and a further scan with no additional writes reports none. -/
theorem scanForGrowth_baseline (p : List Char) (d i s₁ s₂ : Nat)
    (hgrow : s₁ < s₂) :
    scanForGrowth [] [(p, some ⟨d, i, s₁⟩)] = ([(p, ⟨d, i, s₁⟩)], false) ∧
    scanForGrowth [(p, ⟨d, i, s₁⟩)] [(p, some ⟨d, i, s₂⟩)] =
      ([(p, ⟨d, i, s₂⟩)], true) ∧
    scanForGrowth [(p, ⟨d, i, s₂⟩)] [(p, some ⟨d, i, s₂⟩)] =
      ([(p, ⟨d, i, s₂⟩)], false) := by
  refine ⟨scanForGrowth_single_new p ⟨d, i, s₁⟩, ?_, ?_⟩
  · rw [scanForGrowth_single, fileStep_grow ⟨d, i, s₁⟩ ⟨d, i, s₂⟩ rfl rfl hgrow]
  · rw [scanForGrowth_single, fileStep_stable ⟨d, i, s₂⟩ ⟨d, i, s₂⟩ rfl rfl rfl]

/-- Witness for scanForGrowth_baseline: seed size 5, append to size 9. -/
theorem scanForGrowth_baseline_witness :
    scanForGrowth [] [(str "c.log", some ⟨1, 1, 5⟩)] =
      ([(str "c.log", ⟨1, 1, 5⟩)], false) ∧
    scanForGrowth [(str "c.log", ⟨1, 1, 5⟩)] [(str "c.log", some ⟨1, 1, 9⟩)] =
      ([(str "c.log", ⟨1, 1, 9⟩)], true) ∧
    scanForGrowth [(str "c.log", ⟨1, 1, 9⟩)] [(str "c.log", some ⟨1, 1, 9⟩)] =
      ([(str "c.log", ⟨1, 1, 9⟩)], false) :=
  scanForGrowth_baseline (str "c.log") 1 1 5 9 (by decide)

/-- C5: when the stored device/inode differs from the current stat
(rotation), the scan stores the new identity and resets the stored size
to 0, so growth on that call is decided purely by the size comparison of
the new size against 0 (never retroactively by the old baseline); a
rotation observed with an empty new file reports nothing, and a
subsequent write to the new file is then reported as growth. -/
theorem scanForGrowth_rotation (p : List Char) (st : FileState) (stats : Stats)
    (hrot : st.dev ≠ stats.dev ∨ st.ino ≠ stats.ino) :
    scanForGrowth [(p, st)] [(p, some stats)] =
      ([(p, ⟨stats.dev, stats.ino, stats.size⟩)], decide (0 < stats.size)) ∧
    (∀ d2 i2 k : Nat, 0 < k →
      scanForGrowth [(p, ⟨d2, i2, 0⟩)] [(p, some ⟨d2, i2, k⟩)] =
        ([(p, ⟨d2, i2, k⟩)], true)) := by
  constructor
  · rw [scanForGrowth_single, fileStep_rot st stats hrot]
  · intro d2 i2 k hk
    rw [scanForGrowth_single, fileStep_grow ⟨d2, i2, 0⟩ ⟨d2, i2, k⟩ rfl rfl hk]

/-- Witness for scanForGrowth_rotation: path kept, inode 4 replaced by
inode 7 with an empty new file (no growth), then 6 bytes written (growth). -/
theorem scanForGrowth_rotation_witness :
    (scanForGrowth [(str "d.log", ⟨1, 4, 12⟩)] [(str "d.log", some ⟨1, 7, 0⟩)] =
      ([(str "d.log", ⟨1, 7, 0⟩)], decide ((0:Nat) < 0))) ∧
    (scanForGrowth [(str "d.log", ⟨1, 7, 0⟩)] [(str "d.log", some ⟨1, 7, 6⟩)] =
      ([(str "d.log", ⟨1, 7, 6⟩)], true)) :=
  ⟨(scanForGrowth_rotation (str "d.log") ⟨1, 4, 12⟩ ⟨1, 7, 0⟩ (by right; decide)).1,
   (scanForGrowth_rotation (str "d.log") ⟨1, 4, 12⟩ ⟨1, 7, 0⟩ (by right; decide)).2 1 7 6 (by decide)⟩

/-- C6 counterexample: a symbol with effective width 2, fill 1 and total
width 1 (a non-negative total) forces one glyph and emits usedColumns =
2 > totalColumns, so the emitted glyph width is not clamped to
[0, totalColumns] in the forced-minimum-one-glyph case. -/
theorem barUsedColumns_counterexample :
    barUsedColumns asciiTables (str "C") 1 1 (SymbolWidth.fixed 2) = 2 ∧
    ¬ barUsedColumns asciiTables (str "C") 1 1 (SymbolWidth.fixed 2) ≤ 1 := by
  have h1 : barClamped 1 1 = 1 := by
    unfold barClamped
    norm_num
  constructor <;> simp [barUsedColumns, h1, repeatToWidth, resolveSymbolWidth]

/-- C6 (amended): for every input to buildBarArea with a positive
effective glyph width (the program only produces widths 1 and 2, or auto
which is at least 1), the emitted glyph width stays within
[0, max(totalColumns, glyphWidth)]; in particular it stays within
[0, totalColumns] whenever the glyph width fits the total, and only the
forced-minimum-one-glyph case can exceed totalColumns (by emitting
exactly one glyph of width glyphWidth). -/
theorem barUsedColumns_bounded (U : UnicodeTables) (symbol : List Char)
    (filled : ℚ) (tc : ℤ) (w : SymbolWidth)
    (hw : 0 < resolveSymbolWidth U symbol w) :
    barUsedColumns U symbol filled tc w ≤
      max tc.toNat (resolveSymbolWidth U symbol w) ∧
    (resolveSymbolWidth U symbol w ≤ tc.toNat →
      barUsedColumns U symbol filled tc w ≤ tc.toNat) := by
  have hcn : (barClamped filled tc).toNat ≤ tc.toNat := by
    unfold barClamped
    generalize ⌊filled⌋ = x
    omega
  unfold barUsedColumns repeatToWidth
  by_cases hle : barClamped filled tc ≤ 0
  · simp [hle]
  · rw [if_neg hle]
    have hmin : decide (0 < barClamped filled tc) = true :=
      decide_eq_true (not_le.mp hle)
    by_cases h0 : (barClamped filled tc).toNat / resolveSymbolWidth U symbol w = 0
    · simp only [h0, hmin, and_true, if_true, one_ne_zero, if_false, ite_false]
      constructor
      · simp [Nat.le_max_right tc.toNat (resolveSymbolWidth U symbol w)]
      · intro hfit
        simpa using hfit
    · simp only [h0, hmin, and_true, if_false, ite_false]
      have hdiv : (barClamped filled tc).toNat / resolveSymbolWidth U symbol w *
          resolveSymbolWidth U symbol w ≤ (barClamped filled tc).toNat :=
        Nat.div_mul_le_self _ _
      have hbound : (barClamped filled tc).toNat / resolveSymbolWidth U symbol w *
          resolveSymbolWidth U symbol w ≤ tc.toNat := le_trans hdiv hcn
      constructor
      · exact le_trans hbound (Nat.le_max_left _ _)
      · intro _
        exact hbound

/-- Witness for barUsedColumns_bounded at glyph width 2, fill 1, total 1. -/
theorem barUsedColumns_bounded_witness :
    0 < resolveSymbolWidth asciiTables (str "C") (SymbolWidth.fixed 2) ∧
    barUsedColumns asciiTables (str "C") 1 1 (SymbolWidth.fixed 2) ≤
      max (Int.toNat 1) (resolveSymbolWidth asciiTables (str "C") (SymbolWidth.fixed 2)) :=
  ⟨by decide,
   (barUsedColumns_bounded asciiTables (str "C") 1 1 (.fixed 2) (by decide)).1⟩

theorem renderMonitorLine_critical_eq (U : UnicodeTables)
    (opts : ParsedMonitorOptions) (idleMs : ℚ) (tc : ℤ)
    (rt : Option RuntimeTerminalConfig)
    (h : opts.criticalSeconds ≤ max 0 (idleMs / 1000)) :
    renderMonitorLine U opts idleMs tc rt =
      elapsedPfx idleMs ++
        buildBarArea U (pickStateSymbol opts rt .critical)
          ((availCols U idleMs tc : ℤ) : ℚ) (availCols U idleMs tc) .right
          (symWidthOf opts rt) := by
  simp only [renderMonitorLine, if_pos h]

theorem renderMonitorLine_okwarn_eq (U : UnicodeTables)
    (opts : ParsedMonitorOptions) (idleMs : ℚ) (tc : ℤ)
    (rt : Option RuntimeTerminalConfig)
    (h : max 0 (idleMs / 1000) < opts.criticalSeconds) :
    renderMonitorLine U opts idleMs tc rt =
      elapsedPfx idleMs ++
        buildBarArea U
          (pickStateSymbol opts rt
            (if opts.warnSeconds ≤ max 0 (idleMs / 1000) then .warn else .ok))
          ((jsRound ((availCols U idleMs tc : ℚ) *
              max 0 (1 - max 0 (idleMs / 1000) / opts.criticalSeconds)) : ℤ) : ℚ)
          (availCols U idleMs tc) opts.decaySide (symWidthOf opts rt) := by
  simp only [renderMonitorLine, if_neg (not_le.mpr h)]

theorem availCols_nonneg (U : UnicodeTables) (idleMs : ℚ) (tc : ℤ) :
    0 ≤ availCols U idleMs tc := le_max_left 0 _

/-- C1 counterexample: with thresholds 50/100, critical glyph "C" of
explicit width 2, idle 200 seconds and total width 11 the available area
is 3 columns; the rendered line is "[03:20] C " with the leftover
remainder column as a space on the RIGHT of the glyph (flush left), not
the right-aligned "[03:20]  C" the claim requires. -/
theorem renderMonitorLine_critical_gap_on_right :
    renderMonitorLine asciiTables optsCritical 200000 11 none = str "[03:20] C " ∧
    renderMonitorLine asciiTables optsCritical 200000 11 none ≠ str "[03:20]  C" := by
  have hidle : max (0:ℚ) (200000 / 1000) = 200 := by norm_num
  have hfloor : ⌊(200:ℚ)⌋ = 200 := by norm_num
  have hpfx : elapsedPfx 200000 = str "[03:20] " := by
    rw [elapsedPfx, hidle]
    rw [show formatElapsed 200 = str "03:20" by
      simp only [formatElapsed, hfloor]
      decide]
    decide
  have hac : availCols asciiTables 200000 11 = 3 := by
    rw [availCols, hpfx]
    decide
  have hcrit : optsCritical.criticalSeconds ≤ max (0:ℚ) (200000 / 1000) := by
    rw [hidle]
    norm_num [optsCritical]
  have hline : renderMonitorLine asciiTables optsCritical 200000 11 none =
      str "[03:20] C " := by
    rw [renderMonitorLine_critical_eq asciiTables optsCritical 200000 11 none hcrit,
      hpfx, hac]
    rw [show buildBarArea asciiTables
        (pickStateSymbol optsCritical none .critical) (((3:ℤ) : ℚ)) 3 .right
        (symWidthOf optsCritical none) = str "C " by
      have hcl : barClamped (((3:ℤ) : ℚ)) 3 = 3 := by
        unfold barClamped
        rw [Int.floor_intCast]
        decide
      simp only [buildBarArea, hcl]
      decide]
    decide
  exact ⟨hline, by rw [hline]; decide⟩

/-- C1 (amended): when idleSeconds is at least criticalSeconds the bar is
entirely filled with the critical glyph over the full available width
(totalColumns minus the elapsed-time lead-in width) regardless of the
configured decay side, but it is rendered flush LEFT: any leftover
remainder columns that the glyph width does not divide appear as spaces
on the right of the glyphs (the source hard-codes the "right" decay side
for the critical bar, which places the gap after the glyphs). -/
theorem renderMonitorLine_critical_flushLeft (U : UnicodeTables)
    (opts : ParsedMonitorOptions) (idleMs : ℚ) (tc : ℤ)
    (rt : Option RuntimeTerminalConfig)
    (h : opts.criticalSeconds ≤ max 0 (idleMs / 1000)) :
    renderMonitorLine U opts idleMs tc rt =
      elapsedPfx idleMs ++
        (if availCols U idleMs tc ≤ 0 then []
         else
           (repeatToWidth U (pickStateSymbol opts rt .critical)
               (availCols U idleMs tc) true (symWidthOf opts rt)).value ++
             spacesL (availCols U idleMs tc -
               ((repeatToWidth U (pickStateSymbol opts rt .critical)
                   (availCols U idleMs tc) true
                   (symWidthOf opts rt)).usedColumns : ℤ)).toNat) := by
  rw [renderMonitorLine_critical_eq U opts idleMs tc rt h]
  congr 1
  by_cases hle : availCols U idleMs tc ≤ 0
  · rw [if_pos hle]
    unfold buildBarArea
    rw [if_pos hle]
  · rw [if_neg hle]
    unfold buildBarArea
    rw [if_neg hle]
    have hcl : barClamped ((availCols U idleMs tc : ℤ) : ℚ) (availCols U idleMs tc) =
        availCols U idleMs tc := by
      unfold barClamped
      rw [Int.floor_intCast, min_self, max_eq_right (availCols_nonneg U idleMs tc)]
    simp only [hcl, decide_eq_true (not_le.mp hle)]

/-- Witness for renderMonitorLine_critical_flushLeft at the concrete
critical input of the counterexample. -/
theorem renderMonitorLine_critical_flushLeft_witness :
    optsCritical.criticalSeconds ≤ max 0 ((200000:ℚ) / 1000) ∧
    renderMonitorLine asciiTables optsCritical 200000 11 none =
      elapsedPfx 200000 ++
        (if availCols asciiTables 200000 11 ≤ 0 then []
         else
           (repeatToWidth asciiTables
               (pickStateSymbol optsCritical none .critical)
               (availCols asciiTables 200000 11) true
               (symWidthOf optsCritical none)).value ++
             spacesL (availCols asciiTables 200000 11 -
               ((repeatToWidth asciiTables
                   (pickStateSymbol optsCritical none .critical)
                   (availCols asciiTables 200000 11) true
                   (symWidthOf optsCritical none)).usedColumns : ℤ)).toNat) :=
  ⟨by norm_num [optsCritical],
   renderMonitorLine_critical_flushLeft asciiTables optsCritical 200000 11 none
     (by norm_num [optsCritical])⟩

/-- C3: below the critical threshold the filled column count is
round(availableColumns * max(0, 1 - idleSeconds/criticalSeconds)), the
glyph is the warn glyph when idleSeconds is at least warnSeconds and the
ok glyph otherwise, and the configured decay side places the bar: "left"
puts the glyphs flush to the right edge with the empty gap on the left,
"right" puts the glyphs flush to the left edge with the gap on the
right. -/
theorem renderMonitorLine_okwarn_layout (U : UnicodeTables)
    (opts : ParsedMonitorOptions) (idleMs : ℚ) (tc : ℤ)
    (h : max 0 (idleMs / 1000) < opts.criticalSeconds) :
    renderMonitorLine U opts idleMs tc none =
      elapsedPfx idleMs ++
        (let idle := max 0 (idleMs / 1000)
         let avail := availCols U idleMs tc
         let filled := jsRound ((avail : ℚ) * max 0 (1 - idle / opts.criticalSeconds))
         let sym := if opts.warnSeconds ≤ idle then opts.warnEmoji else opts.okEmoji
         let clamped := max 0 (min filled avail)
         let r := repeatToWidth U sym clamped (decide (0 < clamped)) opts.emojiWidth
         let gap := spacesL (avail - (r.usedColumns : ℤ)).toNat
         if avail ≤ 0 then []
         else
           match opts.decaySide with
           | DecaySide.left => gap ++ r.value
           | DecaySide.right => r.value ++ gap) := by
  rw [renderMonitorLine_okwarn_eq U opts idleMs tc none h]
  congr 1
  have hsym : pickStateSymbol opts none
      (if opts.warnSeconds ≤ max 0 (idleMs / 1000) then .warn else .ok) =
      (if opts.warnSeconds ≤ max 0 (idleMs / 1000) then opts.warnEmoji
       else opts.okEmoji) := by
    by_cases hc : opts.warnSeconds ≤ max 0 (idleMs / 1000) <;>
      simp [pickStateSymbol, hc]
  rw [hsym]
  unfold buildBarArea
  have hcl : barClamped
      ((jsRound ((availCols U idleMs tc : ℚ) *
          max 0 (1 - max 0 (idleMs / 1000) / opts.criticalSeconds)) : ℤ) : ℚ)
      (availCols U idleMs tc) =
      max 0 (min (jsRound ((availCols U idleMs tc : ℚ) *
          max 0 (1 - max 0 (idleMs / 1000) / opts.criticalSeconds)))
        (availCols U idleMs tc)) := by
    unfold barClamped
    rw [Int.floor_intCast]
  simp only [hcl, symWidthOf]

/-- Witness for renderMonitorLine_okwarn_layout: thresholds 5/10, glyphs
O/W/C, width 20, decay left, idle 5000 ms renders the warn bar
right-aligned, matching the repository test fixture. -/
theorem renderMonitorLine_okwarn_layout_witness :
    max (0:ℚ) (5000 / 1000) < optsBar.criticalSeconds ∧
    renderMonitorLine asciiTables optsBar 5000 20 none =
      str "[00:05]       WWWWWW" := by
  have h : max (0:ℚ) (5000 / 1000) < optsBar.criticalSeconds := by
    norm_num [optsBar]
  refine ⟨h, ?_⟩
  rw [renderMonitorLine_okwarn_layout asciiTables optsBar 5000 20 h]
  have hidle : max (0:ℚ) (5000 / 1000) = 5 := by norm_num
  have hfloor5 : ⌊(5:ℚ)⌋ = 5 := by norm_num
  have hpfx : elapsedPfx 5000 = str "[00:05] " := by
    rw [elapsedPfx, hidle]
    rw [show formatElapsed 5 = str "00:05" by
      simp only [formatElapsed, hfloor5]
      decide]
    decide
  have hac : availCols asciiTables 5000 20 = 12 := by
    rw [availCols, hpfx]
    decide
  have hfill : jsRound (((12:ℤ) : ℚ) *
      max 0 (1 - max (0:ℚ) (5000 / 1000) / optsBar.criticalSeconds)) = 6 := by
    rw [hidle]
    have hmax : max (0:ℚ) (1 - 5 / optsBar.criticalSeconds) = 1 / 2 := by
      norm_num [optsBar]
    rw [hmax]
    unfold jsRound
    norm_num
  simp only [hac, hpfx, hfill]
  norm_num [optsBar]
  decide

theorem parsePositiveNumber_pos {v : NumStr} {f : String} {q : ℚ}
    (h : parsePositiveNumber v f = .ok q) : 0 < q := by
  unfold parsePositiveNumber at h
  split at h
  · split at h
    · exact Except.noConfusion h
    · injection h with h'
      subst h'
      rename_i hq
      exact not_le.mp hq
  · exact Except.noConfusion h

theorem parsePositiveInteger_pos {v : NumStr} {f : String} {n : ℤ}
    (h : parsePositiveInteger v f = .ok n) : 0 < n := by
  unfold parsePositiveInteger at h
  split at h
  · split at h
    · exact Except.noConfusion h
    · injection h with h'
      subst h'
      omega
  · exact Except.noConfusion h

theorem parseWidth_ok {v : NumStr} {w : WidthOption}
    (h : parseWidth v = .ok w) : w = .auto ∨ ∃ n, w = .cols n ∧ 0 < n := by
  unfold parseWidth at h
  split at h
  · injection h with h'
    exact Or.inl h'.symm
  · split at h
    · split at h
      · exact Except.noConfusion h
      · injection h with h'
        exact Or.inr ⟨_, h'.symm, by omega⟩
    · exact Except.noConfusion h

/-- C9: option construction fails with a configuration error whenever the
parsed criticalSeconds is not strictly greater than the parsed
warnSeconds, whenever an explicitly provided glyph is empty, and whenever
any numeric or enumerated raw value is malformed (its component parser
rejects it); on success the returned options satisfy
criticalSeconds > warnSeconds with positive warnSeconds, all three glyphs
non-empty, a positive refresh interval, and a width that is "auto" or a
positive column count. -/
theorem parseMonitorOptions_validation (raw : MonitorCliOptions)
    (detected : ColorMode) :
    (∀ w c : ℚ,
      parsePositiveNumber (raw.warnSeconds.getD (numStrNat 60)) "--warn-seconds" = .ok w →
      parsePositiveNumber (raw.criticalSeconds.getD (numStrNat 120)) "--critical-seconds" = .ok c →
      c ≤ w → ∃ msg, parseMonitorOptions raw detected = .error msg) ∧
    ((raw.okEmoji = some [] ∨ raw.warnEmoji = some [] ∨ raw.criticalEmoji = some []) →
      ∃ msg, parseMonitorOptions raw detected = .error msg) ∧
    (∀ o, parseMonitorOptions raw detected = .ok o →
      o.warnSeconds < o.criticalSeconds ∧ 0 < o.warnSeconds ∧
      o.okEmoji ≠ [] ∧ o.warnEmoji ≠ [] ∧ o.criticalEmoji ≠ [] ∧
      0 < o.refreshMs ∧
      (o.width = .auto ∨ ∃ n, o.width = .cols n ∧ 0 < n)) ∧
    (((∃ e, parsePositiveNumber (raw.warnSeconds.getD (numStrNat 60)) "--warn-seconds" = .error e) ∨
      (∃ e, parsePositiveNumber (raw.criticalSeconds.getD (numStrNat 120)) "--critical-seconds" = .error e) ∨
      (∃ e, parsePositiveInteger (raw.refreshMs.getD (numStrNat 250)) "--refresh-ms" = .error e) ∨
      (∃ e, parseWidth (raw.width.getD numStrAuto) = .error e) ∨
      (∃ e, parseTerminalProfile raw.terminalProfile = .error e) ∨
      (∃ e, parseSymbolWidth (raw.emojiWidth.getD numStrAuto) = .error e) ∨
      (∃ e, parseLobsterStyle raw.lobsterStyle = .error e) ∨
      (∃ e, parseColorMode raw.colorMode = .error e)) →
      ∃ msg, parseMonitorOptions raw detected = .error msg) := by
  cases h1 : parsePositiveNumber (raw.warnSeconds.getD (numStrNat 60)) "--warn-seconds" with
  | error e =>
    have hres : parseMonitorOptions raw detected = .error e := by
      simp only [parseMonitorOptions, h1]
    exact ⟨fun _ _ _ _ _ => ⟨e, hres⟩, fun _ => ⟨e, hres⟩,
      fun o ho => Except.noConfusion (hres ▸ ho), fun _ => ⟨e, hres⟩⟩
  | ok w =>
    cases h2 : parsePositiveNumber (raw.criticalSeconds.getD (numStrNat 120)) "--critical-seconds" with
    | error e =>
      have hres : parseMonitorOptions raw detected = .error e := by
        simp only [parseMonitorOptions, h1, h2]
      exact ⟨fun _ _ _ _ _ => ⟨e, hres⟩, fun _ => ⟨e, hres⟩,
        fun o ho => Except.noConfusion (hres ▸ ho), fun _ => ⟨e, hres⟩⟩
    | ok c =>
      cases h3 : parsePositiveInteger (raw.refreshMs.getD (numStrNat 250)) "--refresh-ms" with
      | error e =>
        have hres : parseMonitorOptions raw detected = .error e := by
          simp only [parseMonitorOptions, h1, h2, h3]
        exact ⟨fun _ _ _ _ _ => ⟨e, hres⟩, fun _ => ⟨e, hres⟩,
          fun o ho => Except.noConfusion (hres ▸ ho), fun _ => ⟨e, hres⟩⟩
      | ok r =>
        cases h4 : parseWidth (raw.width.getD numStrAuto) with
        | error e =>
          have hres : parseMonitorOptions raw detected = .error e := by
            simp only [parseMonitorOptions, h1, h2, h3, h4]
          exact ⟨fun _ _ _ _ _ => ⟨e, hres⟩, fun _ => ⟨e, hres⟩,
            fun o ho => Except.noConfusion (hres ▸ ho), fun _ => ⟨e, hres⟩⟩
        | ok wd =>
          cases h5 : parseTerminalProfile raw.terminalProfile with
          | error e =>
            have hres : parseMonitorOptions raw detected = .error e := by
              simp only [parseMonitorOptions, h1, h2, h3, h4, h5]
            exact ⟨fun _ _ _ _ _ => ⟨e, hres⟩, fun _ => ⟨e, hres⟩,
              fun o ho => Except.noConfusion (hres ▸ ho), fun _ => ⟨e, hres⟩⟩
          | ok tp =>
            cases h6 : parseSymbolWidth (raw.emojiWidth.getD numStrAuto) with
            | error e =>
              have hres : parseMonitorOptions raw detected = .error e := by
                simp only [parseMonitorOptions, h1, h2, h3, h4, h5, h6]
              exact ⟨fun _ _ _ _ _ => ⟨e, hres⟩, fun _ => ⟨e, hres⟩,
                fun o ho => Except.noConfusion (hres ▸ ho), fun _ => ⟨e, hres⟩⟩
            | ok ew =>
              cases h7 : parseLobsterStyle raw.lobsterStyle with
              | error e =>
                have hres : parseMonitorOptions raw detected = .error e := by
                  simp only [parseMonitorOptions, h1, h2, h3, h4, h5, h6, h7]
                exact ⟨fun _ _ _ _ _ => ⟨e, hres⟩, fun _ => ⟨e, hres⟩,
                  fun o ho => Except.noConfusion (hres ▸ ho), fun _ => ⟨e, hres⟩⟩
              | ok ls =>
                cases h8 : parseColorMode raw.colorMode with
                | error e =>
                  have hres : parseMonitorOptions raw detected = .error e := by
                    simp only [parseMonitorOptions, h1, h2, h3, h4, h5, h6, h7, h8]
                  exact ⟨fun _ _ _ _ _ => ⟨e, hres⟩, fun _ => ⟨e, hres⟩,
                    fun o ho => Except.noConfusion (hres ▸ ho), fun _ => ⟨e, hres⟩⟩
                | ok cm =>
                  by_cases hth : c ≤ w
                  · have hres : parseMonitorOptions raw detected =
                        .error "--critical-seconds must be greater than --warn-seconds" := by
                      simp only [parseMonitorOptions, h1, h2, h3, h4, h5, h6, h7, h8,
                        if_pos hth]
                    exact ⟨fun _ _ _ _ _ => ⟨_, hres⟩, fun _ => ⟨_, hres⟩,
                      fun o ho => Except.noConfusion (hres ▸ ho), fun _ => ⟨_, hres⟩⟩
                  · by_cases hok : raw.okEmoji.getD (str "🦞") = []
                    · have hres : parseMonitorOptions raw detected =
                          .error "--ok-emoji cannot be empty" := by
                        simp only [parseMonitorOptions, h1, h2, h3, h4, h5, h6, h7, h8,
                          if_neg hth, if_pos hok]
                      exact ⟨fun _ _ _ _ _ => ⟨_, hres⟩, fun _ => ⟨_, hres⟩,
                        fun o ho => Except.noConfusion (hres ▸ ho), fun _ => ⟨_, hres⟩⟩
                    · by_cases hwa : raw.warnEmoji.getD
                          (if resolveColorMode cm detected = ColorMode.dark then str "🟨"
                           else str "🟧") = []
                      · have hres : parseMonitorOptions raw detected =
                            .error "--warn-emoji cannot be empty" := by
                          simp only [parseMonitorOptions, h1, h2, h3, h4, h5, h6, h7, h8,
                            if_neg hth, if_neg hok, if_pos hwa]
                        exact ⟨fun _ _ _ _ _ => ⟨_, hres⟩, fun _ => ⟨_, hres⟩,
                          fun o ho => Except.noConfusion (hres ▸ ho), fun _ => ⟨_, hres⟩⟩
                      · by_cases hcr : raw.criticalEmoji.getD
                            (if resolveColorMode cm detected = ColorMode.dark then str "⬜"
                             else str "⬛") = []
                        · have hres : parseMonitorOptions raw detected =
                              .error "--critical-emoji cannot be empty" := by
                            simp only [parseMonitorOptions, h1, h2, h3, h4, h5, h6, h7, h8,
                              if_neg hth, if_neg hok, if_neg hwa, if_pos hcr]
                          exact ⟨fun _ _ _ _ _ => ⟨_, hres⟩, fun _ => ⟨_, hres⟩,
                            fun o ho => Except.noConfusion (hres ▸ ho), fun _ => ⟨_, hres⟩⟩
                        · have hres : parseMonitorOptions raw detected =
                              .ok
                                { logs :=
                                    if jsTrim (raw.logs.getD []) = [] then
                                      str "/tmp/openclaw/openclaw-*.log"
                                    else jsTrim (raw.logs.getD []),
                                  warnSeconds := w, criticalSeconds := c,
                                  okEmoji := raw.okEmoji.getD (str "🦞"),
                                  warnEmoji := raw.warnEmoji.getD
                                    (if resolveColorMode cm detected = ColorMode.dark then str "🟨"
                                     else str "🟧"),
                                  criticalEmoji := raw.criticalEmoji.getD
                                    (if resolveColorMode cm detected = ColorMode.dark then str "⬜"
                                     else str "⬛"),
                                  decaySide :=
                                    match raw.decaySide with
                                    | some .right => .right
                                    | _ => .left,
                                  refreshMs := r, width := wd,
                                  hideCursor := raw.hideCursor ≠ some false,
                                  clearOnEvents :=
                                    raw.clearOnEvents ≠ some false ∧ raw.clear ≠ some false,
                                  terminalProfile := tp, emojiWidth := ew,
                                  lobsterStyle := ls, colorMode := cm,
                                  resolvedColorMode := resolveColorMode cm detected } := by
                            simp only [parseMonitorOptions, h1, h2, h3, h4, h5, h6, h7, h8,
                              if_neg hth, if_neg hok, if_neg hwa, if_neg hcr]
                          refine ⟨?_, ?_, ?_, ?_⟩
                          · intro w' c' hw' hc' hle
                            injection hw' with hw''
                            injection hc' with hc''
                            subst hw''
                            subst hc''
                            exact absurd hle hth
                          · intro hg
                            rcases hg with hg | hg | hg
                            · rw [hg] at hok
                              exact absurd rfl hok
                            · rw [hg] at hwa
                              exact absurd rfl hwa
                            · rw [hg] at hcr
                              exact absurd rfl hcr
                          · intro o ho
                            rw [hres] at ho
                            injection ho with ho'
                            subst ho'
                            exact ⟨not_le.mp hth, parsePositiveNumber_pos h1, hok, hwa, hcr,
                              parsePositiveInteger_pos h3, parseWidth_ok h4⟩
                          · intro hd
                            rcases hd with ⟨e, he⟩ | ⟨e, he⟩ | ⟨e, he⟩ | ⟨e, he⟩ |
                              ⟨e, he⟩ | ⟨e, he⟩ | ⟨e, he⟩ | ⟨e, he⟩ <;>
                              exact Except.noConfusion he

/-- Witness for parseMonitorOptions_validation: warn 120, critical 60
(inverted thresholds) produce a configuration error. -/
theorem parseMonitorOptions_validation_witness :
    ∃ msg, parseMonitorOptions rawThresholdBad ColorMode.dark = .error msg :=
  (parseMonitorOptions_validation rawThresholdBad ColorMode.dark).1 120 60
    rfl rfl (by norm_num)
